import Mathlib

/-!
# Verification of the azure-blob-interface storage driver and path resolver

Shallow embedding of `azure_blob_interface` (files `azure_blob.py`,
`filepaths.py`, `storage.py`).  The remote container is modelled as the
list of stored keys; network attempts are modelled as an explicit
function from the attempt index to its outcome; `pathlib` path joining
and `re.search` are modelled by executable Lean functions mirroring the
Python semantics used by the source.
-/

set_option autoImplicit false

namespace AzureBlobInterface

/-! ## Python string / path helpers -/

/-- Split a character list at every occurrence of `sep`
(the semantics of Python's `str.split(sep)` for a one-character
separator: empty pieces are kept). -/
def splitOnChar (sep : Char) : List Char → List (List Char)
  | [] => [[]]
  | c :: cs =>
    let r := splitOnChar sep cs
    if c = sep then [] :: r
    else
      match r with
      | [] => [[c]]
      | t :: ts => (c :: t) :: ts

/-- The normalized path components of a string, as `pathlib` computes
them for a relative path: split on `/`, dropping empty components and
single-dot components. -/
def pathParts (s : String) : List String :=
  ((splitOnChar '/' s.data).filter (fun t => decide (t ≠ [] ∧ t ≠ ['.']))).map
    (fun t => String.mk t)

/-- `pathlib` joining of relative path pieces followed by `str(...)`:
each piece contributes its normalized components and the components are
joined with `/`.  (Faithful for the relative, non-drive paths the source
builds; an absolute piece, which would reset the join in `pathlib`,
never occurs in the source.) -/
def pyPath (segs : List String) : String :=
  String.intercalate "/" (segs.flatMap pathParts)

/-- `str(Path(s))` for a relative path `s`: normalized components joined
with `/`, and `"."` when no component remains. -/
def pyPathOfString (s : String) : String :=
  match pathParts s with
  | [] => "."
  | ps => String.intercalate "/" ps

/-- Python `int(...)` on a string of decimal digits. -/
def strToNat (s : String) : Nat :=
  s.data.foldl (fun a c => 10 * a + (c.toNat - 48)) 0

/-- Python `"{:02d}".format(n)` for a natural number. -/
def fmt02 (n : Nat) : String :=
  if n < 10 then "0" ++ Nat.repr n else Nat.repr n

/-- Python `str.lower()`, character by character (the product-type tags
compared against it are ASCII). -/
def pyLower (s : String) : String :=
  String.mk (s.data.map Char.toLower)

/-! ## The remote container

`azure_blob.py` talks to one Azure container.  We model its state as the
list of stored blob keys.  `name_starts_with` filtering in the Azure SDK
is plain string-prefix matching on keys. -/

/-- The stored keys of the container. -/
abbrev Store := List String

/-- Models `self.container.list_blobs(name_starts_with=p)`: every stored
key having `p` as a plain string prefix. -/
def list_blobs (store : Store) (p : String) : List String :=
  store.filter (fun k => p.data.isPrefixOf k.data)

/-- Models `AzureStorageDriver.exists` (azure_blob.py:175-176):
`bool(list(self.container.list_blobs(name_starts_with=blob_path)))`. -/
def exists_ (store : Store) (p : String) : Bool :=
  !(list_blobs store p).isEmpty

/-- The name under which a key `k` (which starts with `pfx`) is reported
by `walk_blobs(name_starts_with=pfx, delimiter="/")`: the full key if no
further `/` follows `pfx`, otherwise the virtual-directory name up to
and including the first `/` after `pfx`. -/
def oneLevelName (pfx k : String) : String :=
  let rest := k.data.drop pfx.data.length
  match splitOnChar '/' rest with
  | r :: _ :: _ => String.mk (pfx.data ++ r ++ ['/'])
  | _ => k

/-- Models `self.container.walk_blobs(name_starts_with=pfx, delimiter="/")`:
one-level listing, each virtual directory reported once. -/
def walk_blobs (store : Store) (pfx : String) : List String :=
  ((store.filter (fun k => pfx.data.isPrefixOf k.data)).map (oneLevelName pfx)).dedup

/-! Sorting of listing results.  Python's `sorted` on `Path` objects
compares their component tuples lexicographically. -/

/-- Lexicographic comparison of component lists by string order. -/
def partsLe : List String → List String → Bool
  | [], _ => true
  | _ :: _, [] => false
  | a :: as, b :: bs => if a = b then partsLe as bs else decide (a < b)

/-- `Path` ordering used by `sorted`. -/
def pathLe (a b : String) : Bool :=
  partsLe (pathParts a) (pathParts b)

/-- Insertion step of the sort. -/
def insertPath (a : String) : List String → List String
  | [] => [a]
  | b :: bs => if pathLe a b then a :: b :: bs else b :: insertPath a bs

/-- Models Python `sorted` on paths (membership-faithful; ordering by
component tuples). -/
def sortPaths : List String → List String
  | [] => []
  | a :: as => insertPath a (sortPaths as)

/-- Models `AzureStorageDriver.list_files` (azure_blob.py:183-229) on the
success path, without a `glob` filter.  `prefix_with_slash` is
`f"{str(Path(prefix))}/"`; the non-recursive branch walks one level and,
when that is empty, falls back on `exists` to decide between `[p]`
and `[]`. -/
def list_files (store : Store) (p : String) (recursive : Bool) : List String :=
  let prefixWithSlash := pyPathOfString p ++ "/"
  if recursive then
    sortPaths ((list_blobs store p).map pyPathOfString)
  else
    let files := (walk_blobs store prefixWithSlash).map pyPathOfString
    if files.isEmpty then
      if exists_ store p then [p] else []
    else sortPaths files

/-! ## Retry loops

The three retry loops in `azure_blob.py` (`download` 66-83,
`_upload_file` 156-172, `list_files` 191-217) all have the shape

    tries = retries + 1
    for i in range(tries):
        try: <one network call>; break
        except (ServiceRequestError, ServiceResponseError, HttpResponseError) as e:
            if i + 1 == tries: raise e
            <per-loop cleanup>; continue

We model the underlying call by a function from the attempt index to its
outcome: either success with a value, or a transient service error. -/

/-- Outcome of one attempt of the underlying network call.  `transient`
covers exactly the caught classes `ServiceRequestError`,
`ServiceResponseError`, `HttpResponseError`; any other exception would
escape the `except` clause and is outside this loop model. -/
inductive Attempt (ε : Type) (α : Type) where
  | ok (a : α)
  | transient (e : ε)
  deriving DecidableEq

/-- Run the retry loop over the index list `range tries`, recording the
indices actually attempted.  `none` as result means the loop ran out of
indices without a `break` or `raise` (possible only for an empty index
list, which `range (retries+1)` never is). -/
def retryGo {ε α : Type} (att : Nat → Attempt ε α) :
    List Nat → List Nat × Option (Except ε α)
  | [] => ([], none)
  | i :: rest =>
    match att i with
    | .ok a => ([i], some (.ok a))
    | .transient e =>
      match rest with
      | [] => ([i], some (.error e))
      | _ :: _ =>
        let r := retryGo att rest
        (i :: r.1, r.2)

/-- The retry loop as the source runs it: over `range (retries + 1)`. -/
def retry_run {ε α : Type} (retries : Nat) (att : Nat → Attempt ε α) :
    List Nat × Option (Except ε α) :=
  retryGo att (List.range (retries + 1))

/-! ## Download of one file (azure_blob.py:58-83)

Per file, the loop opens the local output file in `"wb"` mode (creating
or truncating it), streams the blob into it, and on a transient error
either re-raises (final attempt) or unlinks the partial file and
retries.  We record the local-file side effects as a trace of events. -/

/-- Local-file events of the per-file download loop. -/
inductive Ev (ε : Type) where
  /-- attempt `i` opened the output file and wrote a partial result
  before failing -/
  | wrotePart (i : Nat)
  /-- attempt `i` opened the output file and wrote the complete blob -/
  | wroteFull (i : Nat)
  /-- `out_path.unlink(missing_ok=True)` before the next retry -/
  | unlink
  /-- the loop re-raised the transient error `e` -/
  | raised (e : ε)
  deriving DecidableEq

/-- State of the local output file. -/
inductive FileState where
  | absent
  | truncated (i : Nat)
  | complete
  deriving DecidableEq

/-- Effect of one event on the local output file. -/
def applyEv {ε : Type} (s : FileState) : Ev ε → FileState
  | .wrotePart i => .truncated i
  | .wroteFull _ => .complete
  | .unlink => .absent
  | .raised _ => s

/-- Final state of the local output file after a trace. -/
def finalFile {ε : Type} (tr : List (Ev ε)) : FileState :=
  tr.foldl applyEv .absent

/-- The body of `download`'s retry loop over the index list
`range tries` (azure_blob.py:67-83): the `if i + 1 == tries` test is the
`rest = []` case, and the unlink runs only on a non-final failure. -/
def dlTrace {ε : Type} (att : Nat → Attempt ε Unit) : List Nat → List (Ev ε)
  | [] => []
  | i :: rest =>
    match att i with
    | .ok _ => [.wroteFull i]
    | .transient e =>
      match rest with
      | [] => [.wrotePart i, .raised e]
      | _ :: _ => .wrotePart i :: .unlink :: dlTrace att rest

/-- Per-file part of `AzureStorageDriver.download` (azure_blob.py:63-83):
skip (`continue`) when the local file exists and `overwrite` is false,
otherwise run the retry loop with `tries = retries + 1`. -/
def download_file {ε : Type} (localExists overwrite : Bool) (retries : Nat)
    (att : Nat → Attempt ε Unit) : List (Ev ε) :=
  if !overwrite && localExists then []
  else dlTrace att (List.range (retries + 1))

/-! ## Upload of one file (azure_blob.py:146-173) -/

/-- Result of `_upload_file` on its non-raising paths. -/
structure UpOutcome where
  /-- the container keys after the call -/
  store : Store
  /-- whether `upload_blob` succeeded (a remote write happened) -/
  wrote : Bool
  /-- the returned locator (`blob_client.url`, modelled by the key);
  `none` models Python's bare `return` on the skip path -/
  url : Option String
  deriving DecidableEq

/-- Add a key to the container (uploads overwrite in place). -/
def insertKey (store : Store) (k : String) : Store :=
  if k ∈ store then store else store ++ [k]

/-- Models `AzureStorageDriver._upload_file` (azure_blob.py:146-173):
skip when `overwrite` is false and `exists(path_upload)`; otherwise run
the retry loop around `upload_blob` and return the blob url.  The `none`
branch of the loop is unreachable for `tries = retries + 1 ≥ 1`. -/
def upload_file {ε : Type} (store : Store) (dest : String) (overwrite : Bool)
    (retries : Nat) (att : Nat → Attempt ε Unit) : Except ε UpOutcome :=
  if !overwrite && exists_ store dest then .ok ⟨store, false, none⟩
  else
    match (retry_run retries att).2 with
    | some (.ok _) => .ok ⟨insertKey store dest, true, some dest⟩
    | some (.error e) => .error e
    | none => .ok ⟨store, false, none⟩

/-! ## Recursive upload (azure_blob.py:97-144)

`upload` walks the local tree: on a directory it recurses into each
child, on a file it calls `_upload_file(..., retries=retries)`.  The
recursive call at azure_blob.py:126-132 passes
`(path_local, path_upload, overwrite, child_carry)` and `**kwargs` but
not `retries`, so every nested call runs with the signature default
`retries=1`.  We record, per leaf file, the `retries` argument passed to
`_upload_file`. -/

/-- A local file tree (`root_file.is_dir()` / `root_file.glob("*")`). -/
inductive FsNode where
  | file (name : String)
  | dir (name : String) (children : List FsNode)

/-- The default of the `retries` parameter of `upload`
(azure_blob.py:103). -/
def defaultRetries : Nat := 1

mutual

/-- The `(leaf file, retries)` pairs with which `upload` invokes
`_upload_file`, for a call on `node` with retry count `retries`. -/
def uploadCalls : FsNode → Nat → List (String × Nat)
  | .file n, retries => [(n, retries)]
  | .dir _ cs, _ => uploadCallsChildren cs

/-- The per-child recursive calls of `upload` (azure_blob.py:125-133);
each drops `retries` back to the default. -/
def uploadCallsChildren : List FsNode → List (String × Nat)
  | [] => []
  | c :: cs => uploadCalls c defaultRetries ++ uploadCallsChildren cs

end

/-- The final attempt of a retry loop determines its outcome: success
breaks with the value, a transient error is re-raised unchanged. -/
def finalOutcome {ε α : Type} : Attempt ε α → Except ε α
  | .ok a => .ok a
  | .transient e => .error e

/-! ## filepaths.py: regex-based filename parsing

`parse_s2_path` and `parse_s3_path` apply `re.search` with fixed
patterns.  We embed the exact patterns as sequences of one-character
classes (optionally tagged with a capture-group number) and greedy `.*`
items, and run them with a backtracking matcher having Python's
leftmost, greedy semantics.  Characters consumed by `.*` belong to no
group in these patterns, so a match is recorded as the list of
`(group tag, character)` pairs consumed by the class items, in order. -/

/-- `\d` over the ASCII range the filename grammars use. -/
def isDigitC (c : Char) : Bool := 48 ≤ c.toNat && c.toNat ≤ 57

/-- `[A-Z]`. -/
def isUpperC (c : Char) : Bool := 65 ≤ c.toNat && c.toNat ≤ 90

/-- One item of a pattern. -/
inductive RItem where
  /-- a one-character class, tagged with the capture group it lies in -/
  | one (p : Char → Bool) (g : Option Nat)
  /-- a greedy `.*` (`.` matches anything but a newline) -/
  | star (p : Char → Bool)

/-- A literal character of the pattern. -/
def lit (c : Char) : RItem := .one (fun x => x == c) none

/-- The literal characters of `s`. -/
def litsOf (s : String) : List RItem := s.data.map lit

/-- `n` repetitions of a class, tagged with group `g`. -/
def cls (p : Char → Bool) (g : Option Nat) (n : Nat) : List RItem :=
  List.replicate n (.one p g)

/-- A character class given by the characters of `s`. -/
def oneOf (s : String) (g : Option Nat) : RItem :=
  .one (fun c => s.data.contains c) g

/-- Greedy `.*`. -/
def dotStar : RItem := .star (fun c => !(c == '\n'))

/-- A recorded match: the `(group tag, character)` pairs consumed by the
class items, in pattern order. -/
abbrev Caps := List (Option Nat × Char)

/-- Backtracking matcher at a fixed start position, with fuel.  A `.*`
greedily consumes as much as possible and backtracks.  Every recursive
call decreases `pat.length + cs.length`, so fuel
`pat.length + cs.length + 1` suffices. -/
def reM : Nat → List RItem → List Char → Option Caps
  | 0, _, _ => none
  | _ + 1, [], _ => some []
  | _ + 1, .one _ _ :: _, [] => none
  | fuel + 1, .one p g :: ps, c :: cs =>
    if p c then (reM fuel ps cs).map (fun caps => (g, c) :: caps) else none
  | fuel + 1, .star _ :: ps, [] => reM fuel ps []
  | fuel + 1, .star p :: ps, c :: cs =>
    if p c then
      match reM fuel (.star p :: ps) cs with
      | some caps => some caps
      | none => reM fuel ps (c :: cs)
    else reM fuel ps (c :: cs)

/-- Match the whole pattern starting at the head of `cs`. -/
def matchAt (pat : List RItem) (cs : List Char) : Option Caps :=
  reM (pat.length + cs.length + 1) pat cs

/-- `re.search`: try each start position from the left. -/
def reSearch (pat : List RItem) : List Char → Option Caps
  | [] => matchAt pat []
  | c :: cs =>
    match matchAt pat (c :: cs) with
    | some caps => some caps
    | none => reSearch pat cs

/-- The text of capture group `g` in a recorded match. -/
def groupStr (caps : Caps) (g : Nat) : String :=
  String.mk (caps.filterMap (fun gc => if gc.1 = some g then some gc.2 else none))

/-- The pattern of `parse_s2_path` (filepaths.py:20):
`S2[ABCD]_MSI(L[12][AC])_(\d{4})(\d{2})(\d{2})T\d{6}_.*_.*_(T\d{2}\D{3})_`. -/
def s2Pat : List RItem :=
  litsOf "S2" ++ [oneOf "ABCD" none] ++ litsOf "_MSI" ++
  [RItem.one (fun c => c == 'L') (some 1), oneOf "12" (some 1), oneOf "AC" (some 1)] ++
  litsOf "_" ++ cls isDigitC (some 2) 4 ++ cls isDigitC (some 3) 2 ++
  cls isDigitC (some 4) 2 ++ litsOf "T" ++ cls isDigitC none 6 ++ litsOf "_" ++
  [dotStar] ++ litsOf "_" ++ [dotStar] ++ litsOf "_" ++
  [RItem.one (fun c => c == 'T') (some 5)] ++ cls isDigitC (some 5) 2 ++
  cls (fun c => !(isDigitC c)) (some 5) 3 ++ litsOf "_"

/-- The pattern of `parse_s3_path` (filepaths.py:39):
`S3[ABCD]_([A-Z]{2})_(\d)_[A-Z]{3}____(\d{4})(\d{2})(\d{2})T\d{6}_`. -/
def s3Pat : List RItem :=
  litsOf "S3" ++ [oneOf "ABCD" none] ++ litsOf "_" ++
  cls isUpperC (some 1) 2 ++ litsOf "_" ++ cls isDigitC (some 2) 1 ++ litsOf "_" ++
  cls isUpperC none 3 ++ litsOf "____" ++
  cls isDigitC (some 3) 4 ++ cls isDigitC (some 4) 2 ++ cls isDigitC (some 5) 2 ++
  litsOf "T" ++ cls isDigitC none 6 ++ litsOf "_"

/-- Models `parse_s2_path` (filepaths.py:18-23): search the pattern and
return `(level, tile, int(year), int(month), int(day))`; `none` models
the `AttributeError` Python raises via `.groups()` on a failed search. -/
def parse_s2_path (s : String) : Option (String × String × Nat × Nat × Nat) :=
  (reSearch s2Pat s.data).map (fun caps =>
    (groupStr caps 1, groupStr caps 5,
     strToNat (groupStr caps 2), strToNat (groupStr caps 3),
     strToNat (groupStr caps 4)))

/-- Models `parse_s3_path` (filepaths.py:37-42): search the pattern and
return `(sensor, level, int(year), int(month), int(day))`. -/
def parse_s3_path (s : String) : Option (String × String × Nat × Nat × Nat) :=
  (reSearch s3Pat s.data).map (fun caps =>
    (groupStr caps 1, groupStr caps 2,
     strToNat (groupStr caps 3), strToNat (groupStr caps 4),
     strToNat (groupStr caps 5)))

/-- Models `get_s2_path` (filepaths.py:26-34). -/
def get_s2_path (level tile : String) (year month day : Nat) : String :=
  pyPath ["Sentinel-2", level, tile, Nat.repr year, fmt02 month, fmt02 day]

/-- Models `get_s3_path` (filepaths.py:45-63).  The grammar always
supplies a non-empty `level` (one digit), so the Python `level[0]`
index never fails; on an empty `level` Python would raise where this
model prefixes `L`. -/
def get_s3_path (aoi sensor level : String) (year month day : Nat) : String :=
  let sensor :=
    if sensor = "OL" then "OLCI"
    else if sensor = "SL" then "SLSTR"
    else if sensor = "SY" then "SYNERGY"
    else sensor
  let level := if level.take 1 = "L" then level else "L" ++ level
  pyPath ["Sentinel-3", sensor, level, aoi, Nat.repr year, fmt02 month, fmt02 day]

/-- The errors `get_prefix` can raise. -/
inductive PyErr where
  /-- `ProductTypeNotSupported` (filepaths.py:85-86), with its message.
  The source builds the message from the literal
  `"{product_type} product type not supported"` with no `f` prefix, so
  the braces are never interpolated. -/
  | productTypeNotSupported (msg : String)
  /-- the `AttributeError` from `.groups()` when `re.search` finds no
  match -/
  | attributeError
  deriving DecidableEq

/-- Models `get_prefix` (filepaths.py:5-15), dispatching on
`product_type.lower()`. -/
def get_prefix (product_filename product_type : String) (aoi : String) :
    Except PyErr String :=
  if pyLower product_type = "s2" then
    match parse_s2_path product_filename with
    | none => .error .attributeError
    | some (level, tile, y, m, d) => .ok (get_s2_path level tile y m d)
  else if pyLower product_type = "s3" then
    match parse_s3_path product_filename with
    | none => .error .attributeError
    | some (sensor, level, y, m, d) => .ok (get_s3_path aoi sensor level y m d)
  else .error (.productTypeNotSupported "{product_type} product type not supported")

/-! Spec-side definitions, for comparison with the code.  They follow
the wording of the design document, not the source. -/

/-- The sensor-code expansion as the spec words it: `OL→OLCI`,
`SL→SLSTR`, `SY→SYNERGY`, other codes unchanged. -/
def expandSensorSpec (sensor : String) : String :=
  if sensor = "OL" then "OLCI"
  else if sensor = "SL" then "SLSTR"
  else if sensor = "SY" then "SYNERGY"
  else sensor

/-- The level normalization as the spec words it: prefixed with `L` if
not already. -/
def normalizeLevelSpec (level : String) : String :=
  if level.take 1 = "L" then level else "L" ++ level

/-- Decidable equality on `Except`, so that concrete runs of
`get_prefix` and `upload_file` can be checked by `decide`. -/
instance {ε α : Type} [DecidableEq ε] [DecidableEq α] : DecidableEq (Except ε α) := fun x y =>
  match x, y with
  | .ok a, .ok b => if h : a = b then .isTrue (by rw [h]) else .isFalse (by simp [h])
  | .error e, .error f => if h : e = f then .isTrue (by rw [h]) else .isFalse (by simp [h])
  | .ok _, .error _ => .isFalse (by simp)
  | .error _, .ok _ => .isFalse (by simp)

/-! ## Helper lemmas -/

/-- `exists` is plain string-prefix search over the stored keys. -/
theorem exists_eq_true_iff (store : Store) (p : String) :
    exists_ store p = true ↔ ∃ k ∈ store, p.data.isPrefixOf k.data = true := by
  simp [exists_, list_blobs, List.isEmpty_iff, List.filter_eq_nil_iff]

/-- Membership is preserved by the insertion step of the sort. -/
theorem mem_insertPath {x a : String} {l : List String} :
    x ∈ insertPath a l ↔ x = a ∨ x ∈ l := by
  induction l with
  | nil => simp [insertPath]
  | cons b bs ih =>
    simp only [insertPath]
    by_cases h : pathLe a b = true
    · simp [h]
    · simp [h, ih]
      tauto

/-- Membership is preserved by the sort. -/
theorem mem_sortPaths {x : String} {l : List String} :
    x ∈ sortPaths l ↔ x ∈ l := by
  induction l with
  | nil => simp [sortPaths]
  | cons a as ih => simp [sortPaths, mem_insertPath, ih]

/-- The download retry loop when every attempt up to and including the
final index `k` fails: each non-final failure unlinks the partial file
before retrying, and the final failure re-raises with no unlink. -/
theorem dlTrace_allFail {ε : Type} (att : Nat → Attempt ε Unit) (err : Nat → ε)
    (l : List Nat) (k : Nat) (h : ∀ i ∈ l ++ [k], att i = .transient (err i)) :
    dlTrace att (l ++ [k]) =
      (l.flatMap fun i => [Ev.wrotePart i, Ev.unlink]) ++
        [Ev.wrotePart k, Ev.raised (err k)] := by
  induction l with
  | nil => simp [dlTrace, h k (by simp)]
  | cons a l ih =>
    have ha : att a = .transient (err a) := h a (by simp)
    have step : dlTrace att (a :: (l ++ [k])) =
        .wrotePart a :: .unlink :: dlTrace att (l ++ [k]) := by
      cases l with
      | nil => simp [dlTrace, ha]
      | cons b l2 => simp [dlTrace, ha]
    rw [List.cons_append, step, ih (fun j hj => h j (by simp at hj ⊢; tauto))]
    simp

/-- A retry loop whose non-final attempts all fail transiently attempts
every index and ends with the outcome of the final attempt. -/
theorem retryGo_append {ε α : Type} (att : Nat → Attempt ε α) (err : Nat → ε)
    (l : List Nat) (k : Nat) (h : ∀ i ∈ l, att i = .transient (err i)) :
    retryGo att (l ++ [k]) = (l ++ [k], some (finalOutcome (att k))) := by
  induction l with
  | nil => cases hk : att k <;> simp [retryGo, finalOutcome, hk]
  | cons a l ih =>
    have ha : att a = .transient (err a) := h a (by simp)
    have step : retryGo att (a :: (l ++ [k])) =
        (a :: (retryGo att (l ++ [k])).1, (retryGo att (l ++ [k])).2) := by
      cases l with
      | nil => simp [retryGo, ha]
      | cons b l2 => simp [retryGo, ha]
    rw [List.cons_append, step, ih (fun j hj => h j (by simp [hj]))]

/-- `get_prefix` on product type `"s3"` is `get_s3_path` over the parse
result. -/
theorem get_prefix_s3_eq (filename aoi sensor level : String) (y m d : Nat)
    (h : parse_s3_path filename = some (sensor, level, y, m, d)) :
    get_prefix filename "s3" aoi = .ok (get_s3_path aoi sensor level y m d) := by
  unfold get_prefix
  rw [show pyLower "s3" = "s3" from rfl]
  simp [h]

/-- The empty string contributes no path component. -/
theorem pathParts_nil : pathParts "" = [] := rfl

/-! ## The claims -/

/-- C1, counterexample: with the single stored key `"foobar"`,
`exists("foo")` is true although no stored key is exactly `"foo"` or has
`"foo/"` as a prefix — the claimed `/`-boundary does not exist in the
code. -/
theorem C1_counterexample :
    exists_ ["foobar"] "foo" = true ∧
    ¬ ∃ k ∈ (["foobar"] : Store), k = "foo" ∨
        ("foo" ++ "/").data.isPrefixOf k.data = true := by
  decide

/-- C1, amended: `exists(p)` is true iff at least one stored key has the
characters of `p` as a plain string prefix (an exact match included); no
`/` boundary is required. -/
theorem C1_exists_plain_string_prefix (store : Store) (p : String) :
    exists_ store p = true ↔ ∃ k ∈ store, p.data.isPrefixOf k.data = true :=
  exists_eq_true_iff store p

/-- C2, counterexample: with `retries = 1` and every attempt failing
transiently, the download loop ends by re-raising with the partially
written file of the final attempt still on disk — it is not deleted
before the final error propagates. -/
theorem C2_counterexample :
    finalFile (download_file false false 1 (fun i => Attempt.transient i)) =
      FileState.truncated 1 ∧
    FileState.truncated 1 ≠ FileState.absent ∧
    download_file false false 1 (fun i => Attempt.transient i) =
      [Ev.wrotePart 0, Ev.unlink, Ev.wrotePart 1, Ev.raised 1] := by
  decide

/-- C2, amended: when every one of the `retries + 1` attempts fails
transiently, each non-final failure deletes the partial file before the
next attempt, but the final failure re-raises with the partially written
file of the final attempt left in place. -/
theorem C2_partial_file_left_on_final_failure {ε : Type} (retries : Nat)
    (err : Nat → ε) (att : Nat → Attempt ε Unit)
    (h : ∀ i, att i = .transient (err i)) :
    download_file false false retries att =
      ((List.range retries).flatMap fun i => [Ev.wrotePart i, Ev.unlink]) ++
        [Ev.wrotePart retries, Ev.raised (err retries)] ∧
    finalFile (download_file false false retries att) =
      FileState.truncated retries := by
  have htr : download_file false false retries att =
      ((List.range retries).flatMap fun i => [Ev.wrotePart i, Ev.unlink]) ++
        [Ev.wrotePart retries, Ev.raised (err retries)] := by
    have hd : download_file false false retries att =
        dlTrace att (List.range (retries + 1)) := by
      simp [download_file]
    rw [hd, List.range_succ]
    exact dlTrace_allFail att err _ _ (fun i _ => h i)
  refine ⟨htr, ?_⟩
  rw [htr]
  simp [finalFile, List.foldl_append, applyEv]

/-- C2, witness: the amended statement at `retries = 1` with both
attempts failing. -/
theorem C2_witness :
    download_file false false 1 (fun i => Attempt.transient (i + 2)) =
      ((List.range 1).flatMap fun i => [Ev.wrotePart i, Ev.unlink]) ++
        [Ev.wrotePart 1, Ev.raised 3] ∧
    finalFile (download_file false false 1 (fun i => Attempt.transient (i + 2))) =
      FileState.truncated 1 :=
  C2_partial_file_left_on_final_failure 1 (fun i => i + 2)
    (fun i => Attempt.transient (i + 2)) (fun _ => rfl)

/-- C3: if the underlying call fails transiently exactly `k ≥ 1` times
and then succeeds, the retry loop with `retries = k` attempts all of
`0..k` and succeeds, while with `retries = k - 1` it attempts `0..k-1`
and re-raises the `k`-th transient error (the one of attempt `k - 1`)
unchanged. -/
theorem C3_retry_boundary {ε α : Type} (k : Nat) (hk : 1 ≤ k) (err : Nat → ε)
    (a : α) (att : Nat → Attempt ε α)
    (hfail : ∀ i < k, att i = .transient (err i)) (hsucc : att k = .ok a) :
    retry_run k att = (List.range (k + 1), some (.ok a)) ∧
    retry_run (k - 1) att = (List.range k, some (.error (err (k - 1)))) := by
  constructor
  · rw [retry_run, List.range_succ,
      retryGo_append att err _ _ (fun i hi => hfail i (List.mem_range.mp hi)), hsucc]
    rfl
  · have hk1 : k - 1 + 1 = k := Nat.succ_pred_eq_of_pos hk
    have hrange : List.range k = List.range (k - 1) ++ [k - 1] := by
      conv_lhs => rw [← hk1]
      exact List.range_succ (k - 1)
    rw [retry_run, hk1, hrange,
      retryGo_append att err _ _
        (fun i hi => hfail i (lt_of_lt_of_le (List.mem_range.mp hi) (Nat.sub_le k 1))),
      hfail (k - 1) (Nat.sub_lt hk Nat.one_pos)]
    rfl

/-- C3, witness: one transient failure then success, with `retries = 1`
and `retries = 0`. -/
theorem C3_witness :
    retry_run 1 (fun i => if i = 0 then Attempt.transient 7 else Attempt.ok 5) =
      (List.range 2, some (Except.ok 5)) ∧
    retry_run 0 (fun i => if i = 0 then Attempt.transient 7 else Attempt.ok 5) =
      (List.range 1, some (Except.error 7)) :=
  C3_retry_boundary 1 (by decide) (fun _ => 7) 5 _
    (fun i hi => by
      have hi0 : i = 0 := Nat.lt_one_iff.mp hi
      subst hi0
      rfl)
    rfl

/-- C4: uploading a directory with `retries = 3` invokes the per-leaf
write with the default retry count `1`, not `3`, because the recursive
call of `upload` does not forward `retries`; only a direct call on a
plain file keeps the caller value. -/
theorem C4_recursive_upload_drops_retries :
    uploadCalls (FsNode.dir "d" [FsNode.file "a"]) 3 = [("a", 1)] ∧
    uploadCalls (FsNode.file "a") 3 = [("a", 3)] ∧ (1 : Nat) ≠ 3 := by
  refine ⟨?_, ?_, by decide⟩
  · simp [uploadCalls, uploadCallsChildren, defaultRetries]
  · simp [uploadCalls]

/-- C5, counterexample: with the single stored key `"foobar"`,
non-recursive `list_files("foo")` returns `["foo"]` although `"foo"` is
not a stored object and has no children — the `exists` fallback matches
on a plain prefix without a `/` boundary. -/
theorem C5_counterexample :
    list_files ["foobar"] "foo" false = ["foo"] ∧
    ("foo" ∉ (["foobar"] : Store)) ∧
    (∀ k ∈ (["foobar"] : Store), ¬ (("foo" ++ "/").data.isPrefixOf k.data = true)) := by
  decide

/-- C5, amended: non-recursive `list_files(p)` on a normalized `p`
returns, when `p` has no children, `[p]` exactly when some stored key
has the characters of `p` as a plain string prefix (not necessarily an
exact object), else `[]`; and every element it ever returns is either a
one-level child name or `p` itself. -/
theorem C5_list_files_nonrecursive (store : Store) (p : String)
    (hp : pyPathOfString p = p) :
    ((∀ k ∈ store, ¬ ((p ++ "/").data.isPrefixOf k.data = true)) →
      list_files store p false = if exists_ store p = true then [p] else []) ∧
    (∀ f ∈ list_files store p false,
      (∃ k ∈ store, (p ++ "/").data.isPrefixOf k.data = true ∧
        f = pyPathOfString (oneLevelName (p ++ "/") k)) ∨ f = p) := by
  constructor
  · intro h
    have hfilter : store.filter (fun k => (p ++ "/").data.isPrefixOf k.data) = [] := by
      rw [List.filter_eq_nil_iff]
      intro k hk
      simpa using h k hk
    simp only [list_files, hp, walk_blobs, hfilter, List.map_nil, List.dedup_nil]
    simp
  · intro f hf
    simp only [list_files, hp] at hf
    by_cases hempty : ((walk_blobs store (p ++ "/")).map pyPathOfString).isEmpty = true
    · rw [if_neg (by simp), if_pos hempty] at hf
      by_cases hex : exists_ store p = true
      · rw [if_pos hex] at hf
        right
        simpa using hf
      · rw [if_neg hex] at hf
        simp at hf
    · rw [if_neg (by simp), if_neg hempty] at hf
      rw [mem_sortPaths] at hf
      obtain ⟨w, hw, rfl⟩ := List.mem_map.mp hf
      rw [walk_blobs, List.mem_dedup] at hw
      obtain ⟨k, hk, rfl⟩ := List.mem_map.mp hw
      rw [List.mem_filter] at hk
      exact Or.inl ⟨k, hk.1, hk.2, rfl⟩

/-- C5, witness: the amended statement at the concrete store
`["foobar"]` and `p = "foo"`. -/
theorem C5_witness :
    ((∀ k ∈ (["foobar"] : Store), ¬ (("foo" ++ "/").data.isPrefixOf k.data = true)) →
      list_files ["foobar"] "foo" false =
        if exists_ ["foobar"] "foo" = true then ["foo"] else []) ∧
    (∀ f ∈ list_files ["foobar"] "foo" false,
      (∃ k ∈ (["foobar"] : Store), ("foo" ++ "/").data.isPrefixOf k.data = true ∧
        f = pyPathOfString (oneLevelName ("foo" ++ "/") k)) ∨ f = "foo") :=
  C5_list_files_nonrecursive ["foobar"] "foo" (by decide)

/-- C6: with `overwrite = false` and the target already present —
destination key stored for upload, local file existing for download —
neither `_upload_file` nor the per-file download body performs any write
or raises: the store is unchanged, no url is produced, and the
local-file trace is empty. -/
theorem C6_overwrite_false_is_silent_noop {ε : Type} (store : Store)
    (dest : String) (hdest : dest ∈ store) (retries retries' : Nat)
    (att att' : Nat → Attempt ε Unit) :
    upload_file store dest false retries att = .ok ⟨store, false, none⟩ ∧
    download_file true false retries' att' = [] := by
  have hex : exists_ store dest = true := by
    rw [exists_eq_true_iff]
    exact ⟨dest, hdest, by simp⟩
  constructor
  · simp [upload_file, hex]
  · simp [download_file]

/-- C6, witness: a one-key store with the destination already present. -/
theorem C6_witness :
    @upload_file Nat ["a"] "a" false 1 (fun _ => .ok ()) = .ok ⟨["a"], false, none⟩ ∧
    @download_file Nat true false 1 (fun _ => .ok ()) = [] :=
  C6_overwrite_false_is_silent_noop ["a"] "a" (by decide) 1 1 _ _

/-- C7: `get_prefix("foo.tif", "geotiff")` does raise
`ProductTypeNotSupported`, but the message is the uninterpolated
literal — `"geotiff"` does not occur in it, because the source builds
the message without an f-string prefix. -/
theorem C7_unsupported_type_message :
    get_prefix "foo.tif" "geotiff" "" =
      .error (.productTypeNotSupported "{product_type} product type not supported") ∧
    ¬ "geotiff".data <:+: "{product_type} product type not supported".data := by
  decide

/-- C8: for every filename the S3 grammar matches, `get_prefix` with
product type `"s3"` builds
`Sentinel-3 / expandedSensorName / normalizedLevel / aoi / year / month / day`
with the sensor expansion and level normalization the spec describes;
in particular the spec's concrete example holds. -/
theorem C8_s3_path_shape :
    (∀ (filename aoi sensor level : String) (y m d : Nat),
      parse_s3_path filename = some (sensor, level, y, m, d) →
      get_prefix filename "s3" aoi =
        .ok (pyPath ["Sentinel-3", expandSensorSpec sensor, normalizeLevelSpec level,
                     aoi, Nat.repr y, fmt02 m, fmt02 d])) ∧
    get_prefix "S3B_OL_1_EFR____20230115T103421_..." "s3" "europe" =
      .ok "Sentinel-3/OLCI/L1/europe/2023/01/15" := by
  constructor
  · intro filename aoi sensor level y m d h
    rw [get_prefix_s3_eq _ _ _ _ _ _ _ h]
    rfl
  · decide

/-- C8, witness: the universal part applied to the concrete example
filename with `aoi = "x"`. -/
theorem C8_witness :
    get_prefix "S3B_OL_1_EFR____20230115T103421_..." "s3" "x" =
      .ok (pyPath ["Sentinel-3", expandSensorSpec "OL", normalizeLevelSpec "1", "x",
                   Nat.repr 2023, fmt02 1, fmt02 15]) :=
  C8_s3_path_shape.1 _ "x" "OL" "1" 2023 1 15 (by decide)

/-- C9: the spec's concrete S2 example, with the produced path having
exactly the six expected components, the year rendered with 4 digits and
month and day with 2 zero-padded digits. -/
theorem C9_s2_example :
    get_prefix "S2A_MSIL2A_20230115T103421_N0509_R108_T32TQM_20230115T134500.SAFE"
        "s2" "" = .ok "Sentinel-2/L2A/T32TQM/2023/01/15" ∧
    pathParts "Sentinel-2/L2A/T32TQM/2023/01/15" =
      ["Sentinel-2", "L2A", "T32TQM", "2023", "01", "15"] ∧
    "2023".length = 4 ∧ "01".length = 2 ∧ "15".length = 2 := by
  decide

/-- C10: with the default `aoi = ""`, the empty aoi contributes no path
component, so the result is the six-segment path without an empty
segment; the concrete example splits on `/` into six non-empty pieces. -/
theorem C10_empty_aoi_dropped :
    (∀ (filename sensor level : String) (y m d : Nat),
      parse_s3_path filename = some (sensor, level, y, m, d) →
      get_prefix filename "s3" "" =
        .ok (pyPath ["Sentinel-3", expandSensorSpec sensor, normalizeLevelSpec level,
                     Nat.repr y, fmt02 m, fmt02 d])) ∧
    get_prefix "S3B_OL_1_EFR____20230115T103421_..." "s3" "" =
      .ok "Sentinel-3/OLCI/L1/2023/01/15" ∧
    (splitOnChar '/' "Sentinel-3/OLCI/L1/2023/01/15".data).length = 6 ∧
    (∀ t ∈ splitOnChar '/' "Sentinel-3/OLCI/L1/2023/01/15".data, t ≠ []) := by
  refine ⟨?_, by decide, by decide, by decide⟩
  intro filename sensor level y m d h
  rw [get_prefix_s3_eq _ _ _ _ _ _ _ h]
  have hdef : get_s3_path "" sensor level y m d =
      pyPath ["Sentinel-3", expandSensorSpec sensor, normalizeLevelSpec level, "",
              Nat.repr y, fmt02 m, fmt02 d] := rfl
  rw [hdef]
  simp [pyPath, pathParts_nil]

/-- C10, witness: the universal part applied to the concrete example
filename. -/
theorem C10_witness :
    get_prefix "S3B_OL_1_EFR____20230115T103421_..." "s3" "" =
      .ok (pyPath ["Sentinel-3", expandSensorSpec "OL", normalizeLevelSpec "1",
                   Nat.repr 2023, fmt02 1, fmt02 15]) :=
  C10_empty_aoi_dropped.1 _ "OL" "1" 2023 1 15 (by decide)

end AzureBlobInterface
